import Mathlib

/-!
Verification of the image-generation adapter layer (`core/image_generator.py`).

The Python module is embedded shallowly:
  * Python/JSON values become the inductive `PyVal`; dictionary subscripting
    (which raises `KeyError`/`TypeError`), `dict.get`, indexing with `[0]`
    and Python truthiness are modelled as executable functions returning
    `Except String _` where the operation can raise.
  * The external world of one `generate` call (the HTTP POST outcome, the
    base64 decoder, the Replicate run, the download GET, and the local
    `Path.write_bytes`) is a record of oracles supplied as an argument.
  * A raised exception escaping a function is an `Except.error`; the value
    returned together with the emitted diagnostics and the effect on the
    destination file is a `GenResult`.
-/

namespace Autogram

/-- Python values as they occur in this module: strings, integers, booleans,
`None`, lists and string-keyed dictionaries. -/
inductive PyVal where
  | vstr : String → PyVal
  | vint : Int → PyVal
  | vbool : Bool → PyVal
  | vnone : PyVal
  | vlist : List PyVal → PyVal
  | vdict : List (String × PyVal) → PyVal
  deriving Repr

/-- Python truthiness (`bool(v)`): empty string, zero, `False`, `None`, empty
list and empty dict are falsy, everything else is truthy. -/
def PyVal.falsy : PyVal → Bool
  | .vstr s => s == ""
  | .vint n => n == 0
  | .vbool b => !b
  | .vnone => true
  | .vlist l => l.isEmpty
  | .vdict d => d.isEmpty

/-- Python subscripting `v[k]` with a string key: a dictionary lookup raising
`KeyError` when the key is absent, and `TypeError` when `v` is not a
dictionary. -/
def PyVal.subscript : PyVal → String → Except String PyVal
  | .vdict d, k =>
    match d.lookup k with
    | some v => .ok v
    | none => .error ("KeyError: " ++ k)
  | _, k => .error ("TypeError: value is not subscriptable with key " ++ k)

/-- Python `v.get(k)` on a dictionary (`None` for an absent key, here
`Option.none`), raising `AttributeError` when `v` is not a dictionary. -/
def PyVal.dictGet : PyVal → String → Except String (Option PyVal)
  | .vdict d, k => .ok (d.lookup k)
  | _, _ => .error "AttributeError: object has no attribute get"

/-- Python `v.get(k, default)` on a dictionary, raising `AttributeError` when
`v` is not a dictionary. -/
def PyVal.dictGetD : PyVal → String → PyVal → Except String PyVal
  | .vdict d, k, dflt => .ok ((d.lookup k).getD dflt)
  | _, _, _ => .error "AttributeError: object has no attribute get"

/-- Python `v[0]`: the head of a list (`IndexError` on an empty list), the
first character of a string, and `TypeError` otherwise. -/
def PyVal.index0 : PyVal → Except String PyVal
  | .vlist [] => .error "IndexError: list index out of range"
  | .vlist (x :: _) => .ok x
  | .vstr s =>
    match s.data with
    | [] => .error "IndexError: string index out of range"
    | c :: _ => .ok (.vstr (String.mk [c]))
  | _ => .error "TypeError: value is not subscriptable with index 0"

/-- Outcome of `Path.write_bytes(data)`, which opens the destination with mode
`wb` (creating the file, or truncating an existing one) and then writes
`data`: either the write succeeds, or opening fails and the file is left
untouched, or the write itself fails after the open, leaving the
created/truncated file holding the bytes written so far. -/
inductive WriteOutcome where
  | ok : WriteOutcome
  | openFault : String → WriteOutcome
  | writeFault : String → List Nat → WriteOutcome
  deriving Repr, DecidableEq

/-- Effect of one `generate` call on the destination file: either the path is
left exactly as it was before the call, or it now holds the given bytes. -/
inductive FsEffect where
  | untouched : FsEffect
  | contents : List Nat → FsEffect
  deriving Repr, DecidableEq

/-- Observable outcome of a `generate` call that returns normally: the value
returned (`some path` or `None`), the diagnostics printed, and the effect on
the destination file. -/
structure GenResult where
  ret : Option String
  logs : List String
  fs : FsEffect
  deriving Repr

/-- An HTTP response as seen by the OpenAI provider: `resp.status`, the body
text `await resp.text()`, and the outcome of `await resp.json()` (which
raises on a malformed body). -/
structure HttpResp where
  status : Nat
  text : String
  json : Except String PyVal

/-- Environment of one `OpenAIImageGenerator.generate` call: the outcome of
the HTTP POST (an `Except.error` is a transport fault raised by the session
or the request), the behaviour of `base64.b64decode` on strings, and the
behaviour of `Path.write_bytes` at the destination. -/
structure OpenAIEnv where
  post : Except String HttpResp
  b64decode : String → Except String (List Nat)
  write : List Nat → WriteOutcome

/-- State of an `OpenAIImageGenerator`: the constructor stores the API key and
the provider configuration. -/
structure OpenAIImageGenerator where
  api_key : String
  config : PyVal

/-- Request body built by `OpenAIImageGenerator.generate` before the guarded
region: `model` comes from `self.config["model"]` (which can raise),
`size` defaults to `"1024x1024"`, and `quality`/`style` are added when
present in the configuration. -/
def OpenAIImageGenerator.buildPayload (g : OpenAIImageGenerator)
    (prompt : String) : Except String PyVal := do
  let model ← g.config.subscript "model"
  let size ← g.config.dictGetD "size" (.vstr "1024x1024")
  let base := [("model", model), ("prompt", PyVal.vstr prompt),
               ("n", PyVal.vint 1), ("size", size)]
  let withQuality ← do
    match (← g.config.dictGet "quality") with
    | some q => pure (base ++ [("quality", q)])
    | none => pure base
  let withStyle ← do
    match (← g.config.dictGet "style") with
    | some st => pure (withQuality ++ [("style", st)])
    | none => pure withQuality
  pure (.vdict withStyle)

/-- Diagnostic prefix shared by every failure message of the OpenAI
provider. -/
def openaiMsgHead : String := "OpenAI image generation failed: "

/-- Diagnostic printed when an exception `e` is caught at the OpenAI
generation boundary. -/
def openaiFailMsg (e : String) : String := openaiMsgHead ++ e

/-- Diagnostic printed for a non-200 HTTP status: it interpolates the status
code and the response body text. -/
def openaiHttpMsg (status : Nat) (text : String) : String :=
  openaiMsgHead ++ ("HTTP " ++ (toString status ++ (" - " ++ text)))

/-- Diagnostic printed when the response JSON carries no image payload. The
Python message also interpolates the repr of the response data; the claims
only inspect the provider-identifying prefix, so the repr is elided here. -/
def openaiNoImageMsg : String := openaiMsgHead ++ "No image data in response"

/-- Extraction `data.get("data", [{}])[0].get("b64_json")` performed on the
decoded response JSON; each step can raise. -/
def extractB64 (data : PyVal) : Except String (Option PyVal) := do
  let lst ← data.dictGetD "data" (.vlist [.vdict []])
  let first ← lst.index0
  first.dictGet "b64_json"

/-- Body of the `try` block of `OpenAIImageGenerator.generate`, after the
request payload has been built: POST, status check, JSON decoding, payload
extraction, base64 decoding, and the write of the decoded bytes. Every
exception raised inside is caught, printed and converted to `None`. -/
def openaiTry (output_path : String) (env : OpenAIEnv) : GenResult :=
  match env.post with
  | .error e => ⟨none, [openaiFailMsg e], .untouched⟩
  | .ok resp =>
    if resp.status ≠ 200 then
      ⟨none, [openaiHttpMsg resp.status resp.text], .untouched⟩
    else
      match resp.json with
      | .error e => ⟨none, [openaiFailMsg e], .untouched⟩
      | .ok data =>
        match extractB64 data with
        | .error e => ⟨none, [openaiFailMsg e], .untouched⟩
        | .ok b64opt =>
          match b64opt with
          | none => ⟨none, [openaiNoImageMsg], .untouched⟩
          | some b64 =>
            if b64.falsy then ⟨none, [openaiNoImageMsg], .untouched⟩
            else
              match b64 with
              | .vstr s =>
                match env.b64decode s with
                | .error e => ⟨none, [openaiFailMsg e], .untouched⟩
                | .ok bytes =>
                  match env.write bytes with
                  | .ok => ⟨some output_path, [], .contents bytes⟩
                  | .openFault e => ⟨none, [openaiFailMsg e], .untouched⟩
                  | .writeFault e written =>
                    ⟨none, [openaiFailMsg e], .contents written⟩
              | _ =>
                ⟨none,
                 [openaiFailMsg
                   "TypeError: argument should be a bytes-like object or ASCII string"],
                 .untouched⟩

/-- The `generate` method of the OpenAI provider. The request payload is built
before the `try` block, so a `KeyError` from `self.config["model"]` (or a
`TypeError` on a non-dictionary configuration) escapes to the caller; that
is the `Except.error` case. Everything after that point is guarded. -/
def OpenAIImageGenerator.generate (g : OpenAIImageGenerator) (prompt : String)
    (output_path : String) (env : OpenAIEnv) : Except String GenResult := do
  let _payload ← g.buildPayload prompt
  pure (openaiTry output_path env)

/-- Result object returned by `replicate.Client.run`: the code reads
`output.url`, so the model records whether that attribute is present
(`none` makes the access raise `AttributeError`). -/
structure RunOutput where
  url : Option String

/-- Environment of one `ReplicateImageGenerator.generate` call: the outcome of
`client.run` (an `Except.error` is a raised backend invocation fault), the
outcome of the download GET plus `response.read()` at a given URL, and the
behaviour of `Path.write_bytes` at the destination. -/
structure ReplicateEnv where
  run : Except String RunOutput
  download : String → Except String (List Nat)
  write : List Nat → WriteOutcome

/-- State of a `ReplicateImageGenerator`: the constructor builds a client from
the API token and stores the provider configuration. -/
structure ReplicateImageGenerator where
  api_token : String
  config : PyVal

/-- Diagnostic prefix shared by every failure message of the Replicate
provider. -/
def replicateMsgHead : String := "Replicate image generation failed: "

/-- Diagnostic printed when an exception `e` is caught at the Replicate
generation boundary. -/
def replicateFailMsg (e : String) : String := replicateMsgHead ++ e

/-- The `generate` method of the Replicate provider. The whole body sits
inside the `try` block — including `self.config["model"]` — so every raised
exception is caught, printed and converted to `None`; the method never
raises to its caller. -/
def ReplicateImageGenerator.generate (g : ReplicateImageGenerator)
    (prompt : String) (output_path : String) (env : ReplicateEnv) : GenResult :=
  match g.config.subscript "model" with
  | .error e => ⟨none, [replicateFailMsg e], .untouched⟩
  | .ok _model =>
    match env.run with
    | .error e => ⟨none, [replicateFailMsg e], .untouched⟩
    | .ok out =>
      match out.url with
      | none => ⟨none, [replicateFailMsg "AttributeError: url"], .untouched⟩
      | some u =>
        match env.download u with
        | .error e => ⟨none, [replicateFailMsg e], .untouched⟩
        | .ok bytes =>
          match env.write bytes with
          | .ok => ⟨some output_path, [], .contents bytes⟩
          | .openFault e => ⟨none, [replicateFailMsg e], .untouched⟩
          | .writeFault e written =>
            ⟨none, [replicateFailMsg e], .contents written⟩

/-- A provider instance as returned by the factory, remembering which
constructor was called and with which arguments. -/
inductive ImageGenerator where
  | openai : OpenAIImageGenerator → ImageGenerator
  | replicate : ReplicateImageGenerator → ImageGenerator

/-- Python truthiness of `credentials.get(key)`: the key must be present and
its value a non-empty string. -/
def credTruthy (o : Option String) : Bool :=
  match o with
  | some s => !(s == "")
  | none => false

/-- `ImageGeneratorFactory.create`: selects a provider by name, requires the
matching credential to be present and non-empty, and constructs the
instance with that credential and `config["providers"][provider]`. The two
subscripts can raise (`Except.error`); otherwise the factory returns
`some` instance or `none`. -/
def ImageGeneratorFactory.create (provider : String)
    (credentials : List (String × String)) (config : List (String × PyVal)) :
    Except String (Option ImageGenerator) :=
  if provider == "openai" && credTruthy (credentials.lookup "OPENAI_API_KEY") then
    match credentials.lookup "OPENAI_API_KEY" with
    | none => .error "KeyError: OPENAI_API_KEY"
    | some key => do
      let providers ← PyVal.subscript (.vdict config) "providers"
      let sub ← providers.subscript "openai"
      pure (some (.openai ⟨key, sub⟩))
  else if provider == "replicate" && credTruthy (credentials.lookup "REPLICATE_API_TOKEN") then
    match credentials.lookup "REPLICATE_API_TOKEN" with
    | none => .error "KeyError: REPLICATE_API_TOKEN"
    | some token => do
      let providers ← PyVal.subscript (.vdict config) "providers"
      let sub ← providers.subscript "replicate"
      pure (some (.replicate ⟨token, sub⟩))
  else
    .ok none

/-- A diagnostic message that identifies the OpenAI provider: it extends the
fixed OpenAI failure prefix. -/
def openaiDiag (m : String) : Prop := ∃ t, m = openaiMsgHead ++ t

/-- A diagnostic message that identifies the Replicate provider: it extends
the fixed Replicate failure prefix. -/
def replicateDiag (m : String) : Prop := ∃ t, m = replicateMsgHead ++ t

/-- The OpenAI backend delivered `bytes`: the POST succeeded with status 200,
the body parsed, the first element of `data` carried a non-empty
`b64_json` string, and that string decodes to `bytes`. -/
def openaiBackendDelivered (env : OpenAIEnv) (bytes : List Nat) : Prop :=
  ∃ resp data s, env.post = .ok resp ∧ resp.status = 200 ∧
    resp.json = .ok data ∧ extractB64 data = .ok (some (.vstr s)) ∧
    s ≠ "" ∧ env.b64decode s = .ok bytes

/-- Environment in which the OpenAI `generate` call can succeed: the backend
delivered some bytes and the local write of those bytes succeeds. -/
def openaiSuccessEnv (env : OpenAIEnv) : Prop :=
  ∃ bytes, openaiBackendDelivered env bytes ∧ env.write bytes = .ok

/-- The Replicate backend delivered `bytes`: the run succeeded, its result
carried a URL, and downloading that URL yielded `bytes`. -/
def replicateBackendDelivered (env : ReplicateEnv) (bytes : List Nat) : Prop :=
  ∃ out u, env.run = .ok out ∧ out.url = some u ∧ env.download u = .ok bytes

/-- Environment in which the Replicate `generate` call can succeed: the model
lookup, both network steps and the local write all succeed. -/
def replicateSuccessEnv (g : ReplicateImageGenerator) (env : ReplicateEnv) : Prop :=
  (∃ m, g.config.subscript "model" = .ok m) ∧
  ∃ bytes, replicateBackendDelivered env bytes ∧ env.write bytes = .ok

/-- Lookup of the provider sub-configuration `config["providers"][p]` as an
optional value: `some` exactly when `providers` is present, maps to a
dictionary, and that dictionary contains `p`. -/
def providersLookup (config : List (String × PyVal)) (p : String) : Option PyVal :=
  match config.lookup "providers" with
  | some (.vdict ps) => ps.lookup p
  | _ => none

/-- The configuration can serve provider `p`: the subscript chain of the factory
`config["providers"][p]` does not raise for it. -/
def hasProviderCfg (config : List (String × PyVal)) (p : String) : Bool :=
  (providersLookup config p).isSome

/-- Credential key the factory requires for a provider name. -/
def requiredCredKey (provider : String) : String :=
  if provider == "openai" then "OPENAI_API_KEY" else "REPLICATE_API_TOKEN"

/-- Sample configuration with both provider sub-configurations present. -/
def demoConfig : List (String × PyVal) :=
  [("providers",
    .vdict [("openai", .vdict [("model", .vstr "gpt-image-1")]),
            ("replicate", .vdict [("model", .vstr "sdxl")])])]

/-- Sample credentials with both keys present and non-empty. -/
def demoCreds : List (String × String) :=
  [("OPENAI_API_KEY", "sk-test"), ("REPLICATE_API_TOKEN", "r8-test")]

/-- Sample OpenAI generator whose configuration has a model entry. -/
def demoOpenAIGen : OpenAIImageGenerator :=
  ⟨"sk-test", .vdict [("model", .vstr "gpt-image-1")]⟩

/-- Sample OpenAI generator whose configuration has no model entry. -/
def demoNoModelGen : OpenAIImageGenerator := ⟨"sk-test", .vdict []⟩

/-- Sample Replicate generator whose configuration has a model entry. -/
def demoReplicateGen : ReplicateImageGenerator := ⟨"r8-test", .vdict [("model", .vstr "sdxl")]⟩

/-- Sample successful response JSON with a non-empty base64 payload. -/
def demoPayloadJson : PyVal :=
  .vdict [("data", .vlist [.vdict [("b64_json", .vstr "iVBORw0KGgo=")]])]

/-- Sample OpenAI environment where every step succeeds. -/
def demoOkEnv : OpenAIEnv :=
  ⟨.ok ⟨200, "", .ok demoPayloadJson⟩, fun _ => .ok [137, 80, 78, 71], fun _ => .ok⟩

/-- Sample Replicate environment where every step succeeds. -/
def demoReplicateEnv : ReplicateEnv :=
  ⟨.ok ⟨some "http://x/img.png"⟩, fun _ => .ok [137, 80, 78, 71], fun _ => .ok⟩

/-- OpenAI environment whose POST raises a transport fault. -/
def envNetDown : OpenAIEnv :=
  ⟨.error "Cannot connect to host", fun _ => .ok [], fun _ => .ok⟩

/-- OpenAI environment answering a 400 response. -/
def env400 : OpenAIEnv :=
  ⟨.ok ⟨400, "Bad Request", .error "not json"⟩, fun _ => .ok [], fun _ => .ok⟩

/-- OpenAI environment answering a 201 response. -/
def env201 : OpenAIEnv :=
  ⟨.ok ⟨201, "Created", .error "ignored"⟩, fun _ => .ok [], fun _ => .ok⟩

/-- OpenAI environment answering 200 with an empty data list. -/
def envEmptyData : OpenAIEnv :=
  ⟨.ok ⟨200, "", .ok (.vdict [("data", .vlist [])])⟩, fun _ => .ok [], fun _ => .ok⟩

/-- OpenAI environment answering 200 with an empty base64 string. -/
def envEmptyB64 : OpenAIEnv :=
  ⟨.ok ⟨200, "", .ok (.vdict [("data", .vlist [.vdict [("b64_json", .vstr "")]])])⟩,
   fun _ => .ok [], fun _ => .ok⟩

/-- OpenAI environment where everything succeeds except the local write,
which faults after truncating the destination. -/
def envWriteFault : OpenAIEnv :=
  ⟨.ok ⟨200, "", .ok demoPayloadJson⟩, fun _ => .ok [137, 80],
   fun _ => .writeFault "No space left on device" []⟩

/-- Replicate environment where both network steps succeed but the local
write faults after writing one byte. -/
def renvWriteFault : ReplicateEnv :=
  ⟨.ok ⟨some "http://x/img.png"⟩, fun _ => .ok [1, 2, 3],
   fun _ => .writeFault "No space left on device" [1]⟩

/-- Replicate environment whose backend invocation raises. -/
def renvRunFault : ReplicateEnv := ⟨.error "boom", fun _ => .ok [], fun _ => .ok⟩

/-- A credential lookup is truthy exactly when the key is present with a
non-empty value. -/
theorem credTruthy_iff (o : Option String) :
    credTruthy o = true ↔ ∃ s, o = some s ∧ s ≠ "" := by
  cases o with
  | none => simp [credTruthy]
  | some s => simp [credTruthy]

/-- When neither selection guard holds, the factory falls through to
`return None`. -/
theorem create_none_of (provider : String) (credentials : List (String × String))
    (config : List (String × PyVal))
    (h : ¬ ((provider = "openai" ∧ credTruthy (credentials.lookup "OPENAI_API_KEY") = true) ∨
            (provider = "replicate" ∧ credTruthy (credentials.lookup "REPLICATE_API_TOKEN") = true))) :
    ImageGeneratorFactory.create provider credentials config = .ok none := by
  push_neg at h
  obtain ⟨h1, h2⟩ := h
  unfold ImageGeneratorFactory.create
  by_cases hp : provider = "openai"
  · have hc : credTruthy (credentials.lookup "OPENAI_API_KEY") = false := by
      simpa using h1 hp
    simp [hp, hc]
  · by_cases hq : provider = "replicate"
    · have hc : credTruthy (credentials.lookup "REPLICATE_API_TOKEN") = false := by
        simpa using h2 hq
      simp [hp, hq, hc]
    · simp [hp, hq]

/-- On the openai guard with a present non-empty key and an available
sub-configuration, the factory returns the openai instance built from
exactly that key and sub-configuration. -/
theorem create_openai_eq (credentials : List (String × String))
    (config : List (String × PyVal)) (key : String) (sub : PyVal)
    (hk : credentials.lookup "OPENAI_API_KEY" = some key) (hne : key ≠ "")
    (hs : providersLookup config "openai" = some sub) :
    ImageGeneratorFactory.create "openai" credentials config =
      .ok (some (.openai ⟨key, sub⟩)) := by
  unfold providersLookup at hs
  unfold ImageGeneratorFactory.create
  rcases hl : config.lookup "providers" with _ | v
  · rw [hl] at hs; simp at hs
  · rw [hl] at hs
    cases v with
    | vdict ps =>
      simp only [] at hs
      simp [hk, hne, credTruthy, hl, PyVal.subscript, Bind.bind, Except.bind,
            Functor.map, Except.map, pure, Except.pure, hs]
    | vstr s => simp at hs
    | vint n => simp at hs
    | vbool b => simp at hs
    | vnone => simp at hs
    | vlist l => simp at hs

/-- On the replicate guard with a present non-empty token and an available
sub-configuration, the factory returns the replicate instance built from
exactly that token and sub-configuration. -/
theorem create_replicate_eq (credentials : List (String × String))
    (config : List (String × PyVal)) (token : String) (sub : PyVal)
    (hk : credentials.lookup "REPLICATE_API_TOKEN" = some token) (hne : token ≠ "")
    (hs : providersLookup config "replicate" = some sub) :
    ImageGeneratorFactory.create "replicate" credentials config =
      .ok (some (.replicate ⟨token, sub⟩)) := by
  unfold providersLookup at hs
  unfold ImageGeneratorFactory.create
  rcases hl : config.lookup "providers" with _ | v
  · rw [hl] at hs; simp at hs
  · rw [hl] at hs
    cases v with
    | vdict ps =>
      simp only [] at hs
      simp [hk, hne, credTruthy, hl, PyVal.subscript, Bind.bind, Except.bind,
            Functor.map, Except.map, pure, Except.pure, hs]
    | vstr s => simp at hs
    | vint n => simp at hs
    | vbool b => simp at hs
    | vnone => simp at hs
    | vlist l => simp at hs

/-- C1 (amended): provided the configuration carries a sub-configuration for
the provider that matches (otherwise the factory raises, see C9),
`ImageGeneratorFactory.create` returns a provider instance iff the name is
one of the two known identifiers with the corresponding credential present
and non-empty; in every other case it returns `None`; and on a valid match
the instance is built from the matched credential and exactly the
sub-configuration keyed by that provider name. -/
theorem factory_create_spec (provider : String)
    (credentials : List (String × String)) (config : List (String × PyVal))
    (ho : provider = "openai" → hasProviderCfg config "openai" = true)
    (hr : provider = "replicate" → hasProviderCfg config "replicate" = true) :
    ((∃ g, ImageGeneratorFactory.create provider credentials config = .ok (some g)) ↔
      ((provider = "openai" ∧ credTruthy (credentials.lookup "OPENAI_API_KEY") = true) ∨
       (provider = "replicate" ∧ credTruthy (credentials.lookup "REPLICATE_API_TOKEN") = true))) ∧
    (¬ ((provider = "openai" ∧ credTruthy (credentials.lookup "OPENAI_API_KEY") = true) ∨
        (provider = "replicate" ∧ credTruthy (credentials.lookup "REPLICATE_API_TOKEN") = true)) →
      ImageGeneratorFactory.create provider credentials config = .ok none) ∧
    (∀ key sub, provider = "openai" →
      credentials.lookup "OPENAI_API_KEY" = some key → key ≠ "" →
      providersLookup config "openai" = some sub →
      ImageGeneratorFactory.create provider credentials config =
        .ok (some (.openai ⟨key, sub⟩))) ∧
    (∀ token sub, provider = "replicate" →
      credentials.lookup "REPLICATE_API_TOKEN" = some token → token ≠ "" →
      providersLookup config "replicate" = some sub →
      ImageGeneratorFactory.create provider credentials config =
        .ok (some (.replicate ⟨token, sub⟩))) := by
  refine ⟨?_, fun hn => create_none_of _ _ _ hn, ?_, ?_⟩
  · constructor
    · intro ⟨g, hg⟩
      by_contra hn
      rw [create_none_of _ _ _ hn] at hg
      simp at hg
    · intro hcase
      rcases hcase with ⟨hp, hc⟩ | ⟨hp, hc⟩
      · obtain ⟨key, hk, hne⟩ := (credTruthy_iff _).mp hc
        have hcfg := ho hp
        unfold hasProviderCfg at hcfg
        obtain ⟨sub, hs⟩ := Option.isSome_iff_exists.mp hcfg
        subst hp
        exact ⟨_, create_openai_eq _ _ _ _ hk hne hs⟩
      · obtain ⟨token, hk, hne⟩ := (credTruthy_iff _).mp hc
        have hcfg := hr hp
        unfold hasProviderCfg at hcfg
        obtain ⟨sub, hs⟩ := Option.isSome_iff_exists.mp hcfg
        subst hp
        exact ⟨_, create_replicate_eq _ _ _ _ hk hne hs⟩
  · intro key sub hp hk hne hs
    subst hp; exact create_openai_eq _ _ _ _ hk hne hs
  · intro token sub hp hk hne hs
    subst hp; exact create_replicate_eq _ _ _ _ hk hne hs

/-- C1 counterexample: with the known name "openai" and its credential present
and non-empty, a configuration lacking the providers key makes the factory
raise a KeyError — it returns neither a provider instance nor absence, so
the claimed equivalence fails at this input. -/
theorem factory_create_claim_counterexample :
    ImageGeneratorFactory.create "openai" [("OPENAI_API_KEY", "k")] [] =
      .error "KeyError: providers" := by rfl

/-- C1 witness: the amended factory contract evaluated on concrete inputs. -/
theorem factory_create_spec_witness :
    ((∃ g, ImageGeneratorFactory.create "openai" demoCreds demoConfig = .ok (some g)) ↔
      ((("openai" : String) = "openai" ∧ credTruthy (demoCreds.lookup "OPENAI_API_KEY") = true) ∨
       (("openai" : String) = "replicate" ∧ credTruthy (demoCreds.lookup "REPLICATE_API_TOKEN") = true))) ∧
    (¬ ((("openai" : String) = "openai" ∧ credTruthy (demoCreds.lookup "OPENAI_API_KEY") = true) ∨
        (("openai" : String) = "replicate" ∧ credTruthy (demoCreds.lookup "REPLICATE_API_TOKEN") = true)) →
      ImageGeneratorFactory.create "openai" demoCreds demoConfig = .ok none) ∧
    (∀ key sub, ("openai" : String) = "openai" →
      demoCreds.lookup "OPENAI_API_KEY" = some key → key ≠ "" →
      providersLookup demoConfig "openai" = some sub →
      ImageGeneratorFactory.create "openai" demoCreds demoConfig =
        .ok (some (.openai ⟨key, sub⟩))) ∧
    (∀ token sub, ("openai" : String) = "replicate" →
      demoCreds.lookup "REPLICATE_API_TOKEN" = some token → token ≠ "" →
      providersLookup demoConfig "replicate" = some sub →
      ImageGeneratorFactory.create "openai" demoCreds demoConfig =
        .ok (some (.replicate ⟨token, sub⟩))) :=
  factory_create_spec "openai" demoCreds demoConfig
    (fun _ => by rfl) (fun h => absurd h (by decide))

/-- C9: with a known provider name and a present non-empty credential, a
configuration that lacks the providers key, or whose providers mapping
lacks the sub-key of the selected provider, makes `ImageGeneratorFactory.create`
raise an uncaught lookup fault instead of returning a provider or
absence. -/
theorem factory_create_missing_config_raises (provider : String)
    (credentials : List (String × String)) (config : List (String × PyVal))
    (hp : provider = "openai" ∨ provider = "replicate")
    (hcred : credTruthy (credentials.lookup (requiredCredKey provider)) = true)
    (hmiss : hasProviderCfg config provider = false) :
    ∃ e, ImageGeneratorFactory.create provider credentials config = .error e := by
  rcases hp with hp | hp <;> subst hp
  · rw [show requiredCredKey "openai" = "OPENAI_API_KEY" from rfl] at hcred
    obtain ⟨key, hk, hne⟩ := (credTruthy_iff _).mp hcred
    have hct : credTruthy (some key) = true := by simp [credTruthy, hne]
    unfold hasProviderCfg providersLookup at hmiss
    unfold ImageGeneratorFactory.create
    rcases hl : config.lookup "providers" with _ | v
    · exact ⟨"KeyError: providers",
        by simp [hk, hcred, hct, PyVal.subscript, hl, Bind.bind, Except.bind]⟩
    · rw [hl] at hmiss
      cases v with
      | vdict ps =>
        have hnone : ps.lookup "openai" = none := by simpa using hmiss
        exact ⟨"KeyError: openai",
          by simp [hk, hcred, hct, PyVal.subscript, hl, hnone, Bind.bind, Except.bind]⟩
      | vstr s =>
        exact ⟨"TypeError: value is not subscriptable with key openai",
          by simp [hk, hcred, hct, PyVal.subscript, hl, Bind.bind, Except.bind]⟩
      | vint n =>
        exact ⟨"TypeError: value is not subscriptable with key openai",
          by simp [hk, hcred, hct, PyVal.subscript, hl, Bind.bind, Except.bind]⟩
      | vbool b =>
        exact ⟨"TypeError: value is not subscriptable with key openai",
          by simp [hk, hcred, hct, PyVal.subscript, hl, Bind.bind, Except.bind]⟩
      | vnone =>
        exact ⟨"TypeError: value is not subscriptable with key openai",
          by simp [hk, hcred, hct, PyVal.subscript, hl, Bind.bind, Except.bind]⟩
      | vlist l =>
        exact ⟨"TypeError: value is not subscriptable with key openai",
          by simp [hk, hcred, hct, PyVal.subscript, hl, Bind.bind, Except.bind]⟩
  · rw [show requiredCredKey "replicate" = "REPLICATE_API_TOKEN" from rfl] at hcred
    obtain ⟨token, hk, hne⟩ := (credTruthy_iff _).mp hcred
    have hct : credTruthy (some token) = true := by simp [credTruthy, hne]
    unfold hasProviderCfg providersLookup at hmiss
    unfold ImageGeneratorFactory.create
    rcases hl : config.lookup "providers" with _ | v
    · exact ⟨"KeyError: providers",
        by simp [hk, hcred, hct, PyVal.subscript, hl, Bind.bind, Except.bind]⟩
    · rw [hl] at hmiss
      cases v with
      | vdict ps =>
        have hnone : ps.lookup "replicate" = none := by simpa using hmiss
        exact ⟨"KeyError: replicate",
          by simp [hk, hcred, hct, PyVal.subscript, hl, hnone, Bind.bind, Except.bind]⟩
      | vstr s =>
        exact ⟨"TypeError: value is not subscriptable with key replicate",
          by simp [hk, hcred, hct, PyVal.subscript, hl, Bind.bind, Except.bind]⟩
      | vint n =>
        exact ⟨"TypeError: value is not subscriptable with key replicate",
          by simp [hk, hcred, hct, PyVal.subscript, hl, Bind.bind, Except.bind]⟩
      | vbool b =>
        exact ⟨"TypeError: value is not subscriptable with key replicate",
          by simp [hk, hcred, hct, PyVal.subscript, hl, Bind.bind, Except.bind]⟩
      | vnone =>
        exact ⟨"TypeError: value is not subscriptable with key replicate",
          by simp [hk, hcred, hct, PyVal.subscript, hl, Bind.bind, Except.bind]⟩
      | vlist l =>
        exact ⟨"TypeError: value is not subscriptable with key replicate",
          by simp [hk, hcred, hct, PyVal.subscript, hl, Bind.bind, Except.bind]⟩

/-- C9 witness: the factory raises on an empty configuration even though the
replicate credential is present and non-empty. -/
theorem factory_create_missing_config_raises_witness :
    ∃ e, ImageGeneratorFactory.create "replicate" demoCreds [] = .error e :=
  factory_create_missing_config_raises "replicate" demoCreds []
    (Or.inr rfl) (by rfl) (by rfl)

/-- Every OpenAI caught-exception message identifies the provider. -/
@[simp] theorem openaiDiag_failMsg (e : String) : openaiDiag (openaiFailMsg e) :=
  ⟨e, rfl⟩

/-- The OpenAI HTTP-status message identifies the provider. -/
@[simp] theorem openaiDiag_httpMsg (st : Nat) (txt : String) :
    openaiDiag (openaiHttpMsg st txt) := ⟨_, rfl⟩

/-- The OpenAI missing-payload message identifies the provider. -/
@[simp] theorem openaiDiag_noImageMsg : openaiDiag openaiNoImageMsg := ⟨_, rfl⟩

/-- Every Replicate caught-exception message identifies the provider. -/
@[simp] theorem replicateDiag_failMsg (e : String) :
    replicateDiag (replicateFailMsg e) := ⟨e, rfl⟩

/-- When the payload builds, `generate` returns the result of the guarded block. -/
theorem openai_generate_ok (g : OpenAIImageGenerator) (prompt out : String)
    (env : OpenAIEnv) (pl : PyVal) (hpl : g.buildPayload prompt = .ok pl) :
    g.generate prompt out env = .ok (openaiTry out env) := by
  simp [OpenAIImageGenerator.generate, hpl, Bind.bind, Except.bind, pure,
        Except.pure]

/-- Any normal return of the OpenAI `generate` is the result of the guarded
block. -/
theorem openai_generate_ok_inv (g : OpenAIImageGenerator) (prompt out : String)
    (env : OpenAIEnv) (r : GenResult)
    (h : g.generate prompt out env = .ok r) : r = openaiTry out env := by
  unfold OpenAIImageGenerator.generate at h
  cases hb : g.buildPayload prompt with
  | error e => rw [hb] at h; simp [Bind.bind, Except.bind] at h
  | ok pl =>
    rw [hb] at h
    simp [Bind.bind, Except.bind, pure, Except.pure] at h
    exact h.symm

/-- Case analysis of the guarded OpenAI block: on `None` some provider-tagged
diagnostic was printed; a returned path is the destination, with the
backend bytes written verbatim; and on `None` the destination is untouched
unless the local write itself faulted mid-write. -/
theorem openaiTry_spec (out : String) (env : OpenAIEnv) :
    ((openaiTry out env).ret = none →
       (openaiTry out env).logs ≠ [] ∧ ∀ m ∈ (openaiTry out env).logs, openaiDiag m) ∧
    (∀ p, (openaiTry out env).ret = some p →
       p = out ∧ (openaiTry out env).logs = [] ∧
       ∃ bytes, openaiBackendDelivered env bytes ∧ env.write bytes = .ok ∧
         (openaiTry out env).fs = .contents bytes) ∧
    ((openaiTry out env).ret = none →
       (openaiTry out env).fs = .untouched ∨
       ∃ bytes e c, env.write bytes = .writeFault e c ∧
         (openaiTry out env).fs = .contents c) := by
  obtain ⟨post, dec, wr⟩ := env
  unfold openaiTry
  dsimp only
  cases post with
  | error e => simp
  | ok resp =>
    obtain ⟨st, txt, js⟩ := resp
    dsimp only
    by_cases h200 : st = 200
    · subst h200
      rw [if_neg (by simp)]
      cases js with
      | error e => simp
      | ok data =>
        dsimp only
        rcases hx : extractB64 data with e | b64opt <;> dsimp only
        · simp
        · cases b64opt with
          | none => simp
          | some b64 =>
            dsimp only
            cases hf : b64.falsy with
            | true => simp
            | false =>
              rw [if_neg (by simp)]
              cases b64 with
              | vstr s =>
                have hs : s ≠ "" := by simpa [PyVal.falsy] using hf
                dsimp only
                rcases hd : dec s with e | bytes <;> dsimp only
                · simp
                · cases hw : wr bytes with
                  | ok =>
                    dsimp only
                    refine ⟨by simp, ?_, by simp⟩
                    intro p hp
                    obtain rfl := Option.some.inj hp
                    exact ⟨rfl, rfl, bytes,
                      ⟨⟨200, txt, .ok data⟩, data, s, rfl, rfl, rfl, hx, hs, hd⟩,
                      hw, rfl⟩
                  | openFault e => simp
                  | writeFault e c =>
                    dsimp only
                    exact ⟨by simp, by simp,
                      fun _ => Or.inr ⟨bytes, e, c, hw, rfl⟩⟩
              | vint n => simp
              | vbool b => simp
              | vnone => simp [PyVal.falsy] at hf
              | vlist l => simp
              | vdict d => simp
    · rw [if_pos h200]
      simp

/-- Case analysis of the Replicate `generate` call: on `None` some
provider-tagged diagnostic was printed; a returned path is the
destination, with the downloaded bytes written verbatim; and on `None` the
destination is untouched unless the local write itself faulted
mid-write. -/
theorem replicate_generate_spec (g : ReplicateImageGenerator)
    (prompt out : String) (env : ReplicateEnv) :
    ((g.generate prompt out env).ret = none →
       (g.generate prompt out env).logs ≠ [] ∧
       ∀ m ∈ (g.generate prompt out env).logs, replicateDiag m) ∧
    (∀ p, (g.generate prompt out env).ret = some p →
       p = out ∧ (g.generate prompt out env).logs = [] ∧
       (∃ m, g.config.subscript "model" = .ok m) ∧
       ∃ bytes, replicateBackendDelivered env bytes ∧ env.write bytes = .ok ∧
         (g.generate prompt out env).fs = .contents bytes) ∧
    ((g.generate prompt out env).ret = none →
       (g.generate prompt out env).fs = .untouched ∨
       ∃ bytes e c, env.write bytes = .writeFault e c ∧
         (g.generate prompt out env).fs = .contents c) := by
  obtain ⟨run, dl, wr⟩ := env
  unfold ReplicateImageGenerator.generate
  dsimp only
  rcases hm : g.config.subscript "model" with e | m <;> dsimp only
  · simp
  · cases run with
    | error e => simp
    | ok o =>
      dsimp only
      rcases hu : o.url with _ | u <;> dsimp only
      · simp
      · rcases hd : dl u with e | bytes <;> dsimp only
        · simp
        · cases hw : wr bytes with
          | ok =>
            dsimp only
            refine ⟨by simp, ?_, by simp⟩
            intro p hp
            obtain rfl := Option.some.inj hp
            exact ⟨rfl, rfl, ⟨m, rfl⟩, bytes, ⟨o, u, rfl, hu, hd⟩, hw, rfl⟩
          | openFault e => simp
          | writeFault e c =>
            dsimp only
            exact ⟨by simp, by simp, fun _ => Or.inr ⟨bytes, e, c, hw, rfl⟩⟩

/-- C2 counterexample: the OpenAI provider builds its request payload before
the guarded region, so with a configuration lacking the model entry a call
made in a transport-fault environment raises a KeyError to the caller
instead of returning absence-of-result. -/
theorem fault_containment_claim_counterexample :
    demoNoModelGen.generate "p" "out.png" envNetDown = .error "KeyError: model" := by
  rfl

/-- C2 (amended): provided the provider configuration lets the request payload
build (the direct-HTTP provider reads the model entry before its guarded
region), every fault of either provider is caught at the generation
boundary: the call returns normally, `None` comes with a non-empty list of
diagnostics identifying the provider, and a returned path implies no step
faulted. -/
theorem generate_fault_containment
    (g : OpenAIImageGenerator) (prompt out : String) (env : OpenAIEnv)
    (rg : ReplicateImageGenerator) (rprompt rout : String) (renv : ReplicateEnv)
    (hpl : ∃ pl, g.buildPayload prompt = .ok pl) :
    (∃ r, g.generate prompt out env = .ok r ∧
       (r.ret = none → r.logs ≠ [] ∧ ∀ m ∈ r.logs, openaiDiag m) ∧
       (∀ p, r.ret = some p → openaiSuccessEnv env)) ∧
    ((rg.generate rprompt rout renv).ret = none →
       (rg.generate rprompt rout renv).logs ≠ [] ∧
       ∀ m ∈ (rg.generate rprompt rout renv).logs, replicateDiag m) ∧
    (∀ p, (rg.generate rprompt rout renv).ret = some p →
       replicateSuccessEnv rg renv) := by
  obtain ⟨pl, hpl⟩ := hpl
  have hspec := openaiTry_spec out env
  have hrspec := replicate_generate_spec rg rprompt rout renv
  refine ⟨⟨openaiTry out env, openai_generate_ok g prompt out env pl hpl,
           hspec.1, ?_⟩, hrspec.1, ?_⟩
  · intro p hp
    obtain ⟨-, -, bytes, hdel, hw, -⟩ := hspec.2.1 p hp
    exact ⟨bytes, hdel, hw⟩
  · intro p hp
    obtain ⟨-, -, hm, bytes, hdel, hw, -⟩ := hrspec.2.1 p hp
    exact ⟨hm, bytes, hdel, hw⟩

/-- C2 witness: fault containment evaluated on concrete calls. -/
theorem generate_fault_containment_witness :
    (∃ r, demoOpenAIGen.generate "a cat" "cat.png" demoOkEnv = .ok r ∧
       (r.ret = none → r.logs ≠ [] ∧ ∀ m ∈ r.logs, openaiDiag m) ∧
       (∀ p, r.ret = some p → openaiSuccessEnv demoOkEnv)) ∧
    ((demoReplicateGen.generate "a cat" "dog.png" demoReplicateEnv).ret = none →
       (demoReplicateGen.generate "a cat" "dog.png" demoReplicateEnv).logs ≠ [] ∧
       ∀ m ∈ (demoReplicateGen.generate "a cat" "dog.png" demoReplicateEnv).logs,
         replicateDiag m) ∧
    (∀ p, (demoReplicateGen.generate "a cat" "dog.png" demoReplicateEnv).ret = some p →
       replicateSuccessEnv demoReplicateGen demoReplicateEnv) :=
  generate_fault_containment demoOpenAIGen "a cat" "cat.png" demoOkEnv
    demoReplicateGen "a cat" "dog.png" demoReplicateEnv
    ⟨.vdict [("model", .vstr "gpt-image-1"), ("prompt", .vstr "a cat"),
             ("n", .vint 1), ("size", .vstr "1024x1024")], by rfl⟩

/-- C3 counterexample: two concrete 200 responses of the claimed shape where
`generate` returns `None` instead of writing and returning the path — the
payload `""` (a valid base64 string, rejected by the truthiness check),
and a valid payload whose local write faults. -/
theorem openai_success_claim_counterexample :
    demoOpenAIGen.generate "p" "out.png" envEmptyB64 =
      .ok ⟨none, [openaiNoImageMsg], .untouched⟩ ∧
    demoOpenAIGen.generate "p" "out.png" envWriteFault =
      .ok ⟨none, [openaiFailMsg "No space left on device"], .contents []⟩ := by
  exact ⟨rfl, rfl⟩

/-- C3 (amended): when the direct-HTTP provider receives a 200 response whose
JSON body is `{"data":[{"b64_json": b64}]}` with `b64` a non-empty valid
base64 string, and the local write of the decoded bytes succeeds,
`generate` writes the decoded bytes verbatim to the destination and
returns that path. -/
theorem openai_generate_success (g : OpenAIImageGenerator)
    (prompt out txt b64 : String) (bytes : List Nat) (env : OpenAIEnv)
    (pl : PyVal)
    (hpl : g.buildPayload prompt = .ok pl)
    (hpost : env.post = .ok ⟨200, txt,
      .ok (.vdict [("data", .vlist [.vdict [("b64_json", .vstr b64)]])])⟩)
    (hne : b64 ≠ "")
    (hdec : env.b64decode b64 = .ok bytes)
    (hw : env.write bytes = .ok) :
    g.generate prompt out env = .ok ⟨some out, [], .contents bytes⟩ := by
  rw [openai_generate_ok g prompt out env pl hpl]
  unfold openaiTry
  rw [hpost]
  dsimp only
  rw [if_neg (by simp)]
  rw [show extractB64 (.vdict [("data", .vlist [.vdict [("b64_json", .vstr b64)]])]) =
        .ok (some (.vstr b64)) from rfl]
  try dsimp only
  rw [if_neg (by simp [PyVal.falsy, hne])]
  try dsimp only
  rw [hdec]
  try dsimp only
  rw [hw]

/-- C3 witness: the success path evaluated on a concrete call. -/
theorem openai_generate_success_witness :
    demoOpenAIGen.generate "a cat" "cat.png" demoOkEnv =
      .ok ⟨some "cat.png", [], .contents [137, 80, 78, 71]⟩ :=
  openai_generate_success demoOpenAIGen "a cat" "cat.png" "" "iVBORw0KGgo="
    [137, 80, 78, 71] demoOkEnv
    (.vdict [("model", .vstr "gpt-image-1"), ("prompt", .vstr "a cat"),
             ("n", .vint 1), ("size", .vstr "1024x1024")])
    (by rfl) (by rfl) (by decide) (by rfl) (by rfl)

/-- C4: on either provider, a call that returns a path returned the
destination path, and the destination file now holds exactly the bytes the
backend delivered (the decoded base64 payload, resp. the downloaded
bytes), so reading it back is byte-identical to the backend content. -/
theorem generate_success_roundtrip
    (g : OpenAIImageGenerator) (prompt out : String) (env : OpenAIEnv)
    (rg : ReplicateImageGenerator) (rprompt rout : String) (renv : ReplicateEnv) :
    (∀ r p, g.generate prompt out env = .ok r → r.ret = some p →
       p = out ∧ ∃ bytes, openaiBackendDelivered env bytes ∧
         r.fs = .contents bytes) ∧
    (∀ p, (rg.generate rprompt rout renv).ret = some p →
       p = rout ∧ ∃ bytes, replicateBackendDelivered renv bytes ∧
         (rg.generate rprompt rout renv).fs = .contents bytes) := by
  constructor
  · intro r p hr hp
    obtain rfl := openai_generate_ok_inv g prompt out env r hr
    obtain ⟨hpo, -, bytes, hdel, -, hfs⟩ := (openaiTry_spec out env).2.1 p hp
    exact ⟨hpo, bytes, hdel, hfs⟩
  · intro p hp
    obtain ⟨hpo, -, -, bytes, hdel, -, hfs⟩ :=
      (replicate_generate_spec rg rprompt rout renv).2.1 p hp
    exact ⟨hpo, bytes, hdel, hfs⟩

/-- C4 witness: the round-trip property evaluated on a concrete successful
call. -/
theorem generate_success_roundtrip_witness :
    ("cat.png" : String) = "cat.png" ∧
    ∃ bytes, openaiBackendDelivered demoOkEnv bytes ∧
      (GenResult.mk (some "cat.png") [] (.contents [137, 80, 78, 71])).fs =
        .contents bytes :=
  (generate_success_roundtrip demoOpenAIGen "a cat" "cat.png" demoOkEnv
      demoReplicateGen "a cat" "dog.png" demoReplicateEnv).1
    (GenResult.mk (some "cat.png") [] (.contents [137, 80, 78, 71]))
    "cat.png" (by rfl) rfl

/-- C5: on a non-2xx response the direct-HTTP provider returns `None`,
leaves the destination untouched, and prints a single diagnostic that
contains the status code and the response body text. -/
theorem openai_non2xx (g : OpenAIImageGenerator) (prompt out : String)
    (env : OpenAIEnv) (resp : HttpResp) (pl : PyVal)
    (hpl : g.buildPayload prompt = .ok pl)
    (hpost : env.post = .ok resp)
    (hst : resp.status < 200 ∨ 300 ≤ resp.status) :
    g.generate prompt out env =
      .ok ⟨none, [openaiHttpMsg resp.status resp.text], .untouched⟩ ∧
    (∃ a b, openaiHttpMsg resp.status resp.text =
      a ++ (toString resp.status ++ b)) ∧
    (∃ c, openaiHttpMsg resp.status resp.text = c ++ resp.text) := by
  have h200 : resp.status ≠ 200 := by omega
  refine ⟨?_, ⟨openaiMsgHead ++ "HTTP ", " - " ++ resp.text, ?_⟩,
          ⟨(openaiMsgHead ++ "HTTP ") ++ (toString resp.status ++ " - "), ?_⟩⟩
  · rw [openai_generate_ok g prompt out env pl hpl]
    unfold openaiTry
    rw [hpost]
    dsimp only
    rw [if_pos h200]
  · simp [openaiHttpMsg, String.append_assoc]
  · simp [openaiHttpMsg, String.append_assoc]

/-- C5 witness: the 400 case evaluated on a concrete call. -/
theorem openai_non2xx_witness :
    demoOpenAIGen.generate "a cat" "cat.png" env400 =
      .ok ⟨none, [openaiHttpMsg 400 "Bad Request"], .untouched⟩ ∧
    (∃ a b, openaiHttpMsg 400 "Bad Request" = a ++ (toString 400 ++ b)) ∧
    (∃ c, openaiHttpMsg 400 "Bad Request" = c ++ "Bad Request") :=
  openai_non2xx demoOpenAIGen "a cat" "cat.png" env400 ⟨400, "Bad Request", .error "not json"⟩
    (.vdict [("model", .vstr "gpt-image-1"), ("prompt", .vstr "a cat"),
             ("n", .vint 1), ("size", .vstr "1024x1024")])
    (by rfl) (by rfl) (by decide)

/-- C6: on a 200 response whose JSON body has an empty data list, the
direct-HTTP provider returns `None` normally — the IndexError raised by
the extraction is caught at the boundary, so nothing propagates to the
caller. -/
theorem openai_empty_data (g : OpenAIImageGenerator) (prompt out txt : String)
    (env : OpenAIEnv) (pl : PyVal)
    (hpl : g.buildPayload prompt = .ok pl)
    (hpost : env.post = .ok ⟨200, txt, .ok (.vdict [("data", .vlist [])])⟩) :
    g.generate prompt out env =
      .ok ⟨none, [openaiFailMsg "IndexError: list index out of range"],
           .untouched⟩ := by
  rw [openai_generate_ok g prompt out env pl hpl]
  unfold openaiTry
  rw [hpost]
  dsimp only
  rw [if_neg (by simp)]
  rfl

/-- C6 witness: the empty-data case evaluated on a concrete call. -/
theorem openai_empty_data_witness :
    demoOpenAIGen.generate "a cat" "cat.png" envEmptyData =
      .ok ⟨none, [openaiFailMsg "IndexError: list index out of range"],
           .untouched⟩ :=
  openai_empty_data demoOpenAIGen "a cat" "cat.png" "" envEmptyData
    (.vdict [("model", .vstr "gpt-image-1"), ("prompt", .vstr "a cat"),
             ("n", .vint 1), ("size", .vstr "1024x1024")])
    (by rfl) (by rfl)

/-- C7: any fault in either of the two sequential Replicate steps —
a raised backend invocation, a result lacking a URL, or a failed download —
makes `generate` return `None` with a provider-tagged diagnostic, and a
returned path implies both steps (and the model lookup and write)
succeeded. -/
theorem replicate_step_faults (rg : ReplicateImageGenerator)
    (prompt out : String) (env : ReplicateEnv) :
    (∀ e, env.run = .error e →
       (rg.generate prompt out env).ret = none ∧
       (rg.generate prompt out env).logs ≠ [] ∧
       ∀ m ∈ (rg.generate prompt out env).logs, replicateDiag m) ∧
    (∀ o, env.run = .ok o → o.url = none →
       (rg.generate prompt out env).ret = none ∧
       (rg.generate prompt out env).logs ≠ [] ∧
       ∀ m ∈ (rg.generate prompt out env).logs, replicateDiag m) ∧
    (∀ o u e, env.run = .ok o → o.url = some u → env.download u = .error e →
       (rg.generate prompt out env).ret = none ∧
       (rg.generate prompt out env).logs ≠ [] ∧
       ∀ m ∈ (rg.generate prompt out env).logs, replicateDiag m) ∧
    (∀ p, (rg.generate prompt out env).ret = some p →
       replicateSuccessEnv rg env) := by
  have hspec := replicate_generate_spec rg prompt out env
  have hsucc : ∀ p, (rg.generate prompt out env).ret = some p →
      replicateSuccessEnv rg env := by
    intro p hp
    obtain ⟨-, -, hm, bytes, hdel, hw, -⟩ := hspec.2.1 p hp
    exact ⟨hm, bytes, hdel, hw⟩
  have hnone : (¬ replicateSuccessEnv rg env) →
      (rg.generate prompt out env).ret = none := by
    intro hn
    rcases hret : (rg.generate prompt out env).ret with _ | p
    · rfl
    · exact absurd (hsucc p hret) hn
  refine ⟨?_, ?_, ?_, hsucc⟩
  · intro e he
    have hret : (rg.generate prompt out env).ret = none := by
      refine hnone ?_
      rintro ⟨-, bytes, ⟨o, u, hrun, -, -⟩, -⟩
      rw [he] at hrun
      cases hrun
    exact ⟨hret, (hspec.1 hret).1, (hspec.1 hret).2⟩
  · intro o ho hu
    have hret : (rg.generate prompt out env).ret = none := by
      refine hnone ?_
      rintro ⟨-, bytes, ⟨o2, u, hrun, hurl, -⟩, -⟩
      rw [ho] at hrun
      cases hrun
      rw [hu] at hurl
      cases hurl
    exact ⟨hret, (hspec.1 hret).1, (hspec.1 hret).2⟩
  · intro o u e ho hu hd
    have hret : (rg.generate prompt out env).ret = none := by
      refine hnone ?_
      rintro ⟨-, bytes, ⟨o2, u2, hrun, hurl, hdl⟩, -⟩
      rw [ho] at hrun
      cases hrun
      rw [hu] at hurl
      cases hurl
      rw [hd] at hdl
      cases hdl
    exact ⟨hret, (hspec.1 hret).1, (hspec.1 hret).2⟩
  

/-- C7 witness: the backend-invocation fault evaluated on a concrete call. -/
theorem replicate_step_faults_witness :
    (demoReplicateGen.generate "p" "o.png" renvRunFault).ret = none ∧
    (demoReplicateGen.generate "p" "o.png" renvRunFault).logs ≠ [] ∧
    ∀ m ∈ (demoReplicateGen.generate "p" "o.png" renvRunFault).logs,
      replicateDiag m :=
  (replicate_step_faults demoReplicateGen "p" "o.png" renvRunFault).1 "boom" rfl

/-- C8 counterexample: a failing call in which the destination is changed —
both network steps succeed, the local write truncates the destination and
then faults after one byte: `generate` returns `None`, yet the destination
now holds that byte rather than its prior content. -/
theorem failure_untouched_claim_counterexample :
    demoReplicateGen.generate "p" "img.png" renvWriteFault =
      ⟨none, [replicateFailMsg "No space left on device"], .contents [1]⟩ := by
  rfl

/-- C8 (amended): on either provider, a call that returns `None` leaves the
destination untouched, unless the failure is a fault of the local write
itself after it opened (created or truncated) the destination, in which
case the file holds the bytes written before the fault. -/
theorem generate_failure_fs (g : OpenAIImageGenerator) (prompt out : String)
    (env : OpenAIEnv) (rg : ReplicateImageGenerator) (rprompt rout : String)
    (renv : ReplicateEnv) :
    (∀ r, g.generate prompt out env = .ok r → r.ret = none →
       r.fs = .untouched ∨
       ∃ bytes e c, env.write bytes = .writeFault e c ∧ r.fs = .contents c) ∧
    ((rg.generate rprompt rout renv).ret = none →
       (rg.generate rprompt rout renv).fs = .untouched ∨
       ∃ bytes e c, renv.write bytes = .writeFault e c ∧
         (rg.generate rprompt rout renv).fs = .contents c) := by
  constructor
  · intro r hr hret
    obtain rfl := openai_generate_ok_inv g prompt out env r hr
    exact (openaiTry_spec out env).2.2 hret
  · exact (replicate_generate_spec rg rprompt rout renv).2.2

/-- C8 witness: the amended property evaluated on a concrete failing call. -/
theorem generate_failure_fs_witness :
    (GenResult.mk none [openaiFailMsg "Cannot connect to host"] .untouched).fs =
        .untouched ∨
    ∃ bytes e c, envNetDown.write bytes = .writeFault e c ∧
      (GenResult.mk none [openaiFailMsg "Cannot connect to host"] .untouched).fs =
        .contents c :=
  (generate_failure_fs demoOpenAIGen "p" "out.png" envNetDown
      demoReplicateGen "p" "o.png" demoReplicateEnv).1
    (GenResult.mk none [openaiFailMsg "Cannot connect to host"] .untouched)
    (by rfl) rfl

/-- C10: the direct-HTTP provider enters its failure branch on every status
other than exactly 200 — including 2xx statuses such as 201 — returning
`None` with the HTTP diagnostic and never consulting the JSON payload
(the response body parse outcome is arbitrary here); and a returned path
implies the status was exactly 200. -/
theorem openai_only_status_200 (g : OpenAIImageGenerator) (prompt out : String)
    (env env2 : OpenAIEnv) (resp : HttpResp) (pl : PyVal)
    (hpl : g.buildPayload prompt = .ok pl)
    (hpost : env.post = .ok resp) (hst : resp.status ≠ 200) :
    g.generate prompt out env =
      .ok ⟨none, [openaiHttpMsg resp.status resp.text], .untouched⟩ ∧
    (∀ r p, g.generate prompt out env2 = .ok r → r.ret = some p →
       ∃ resp2, env2.post = .ok resp2 ∧ resp2.status = 200) := by
  constructor
  · rw [openai_generate_ok g prompt out env pl hpl]
    unfold openaiTry
    rw [hpost]
    dsimp only
    rw [if_pos hst]
  · intro r p hr hp
    obtain rfl := openai_generate_ok_inv g prompt out env2 r hr
    obtain ⟨-, -, bytes, hdel, -, -⟩ := (openaiTry_spec out env2).2.1 p hp
    obtain ⟨resp2, data, str, hpost2, h200, -⟩ := hdel
    exact ⟨resp2, hpost2, h200⟩

/-- C10 witness: the 201 case evaluated on a concrete call. -/
theorem openai_only_status_200_witness :
    demoOpenAIGen.generate "a cat" "cat.png" env201 =
      .ok ⟨none, [openaiHttpMsg 201 "Created"], .untouched⟩ ∧
    (∀ r p, demoOpenAIGen.generate "a cat" "cat.png" demoOkEnv = .ok r →
       r.ret = some p →
       ∃ resp2, demoOkEnv.post = .ok resp2 ∧ resp2.status = 200) :=
  openai_only_status_200 demoOpenAIGen "a cat" "cat.png" env201 demoOkEnv
    ⟨201, "Created", .error "ignored"⟩
    (.vdict [("model", .vstr "gpt-image-1"), ("prompt", .vstr "a cat"),
             ("n", .vint 1), ("size", .vstr "1024x1024")])
    (by rfl) (by rfl) (by decide)

end Autogram
